import Mathlib

/-!
Shallow embedding of the entity-synchronization core of the pyexchange
library (src/pyexchange/exchange2010/init and src/pyexchange/base/*),
together with theorems settling the frozen claims about it.

Conventions of the embedding:
* Python exceptions are values of `PyError`; a fallible operation returns
  `Except PyError α`.
* Network traffic is observable: every operation that may call
  `self.service.send(body)` returns, next to its `Except` result, the list
  of request bodies it sent, in order.  The transport is a pure oracle
  `Nat → Resp` giving the (already parsed) content of the n-th response of
  the operation; faults raised by the transport itself are outside the
  operations modelled here.
* `Option String` models a Python attribute that is `None` or a string;
  `falsy` models Python truthiness testing (`if not self.id`) on such a
  value.
* Exception message strings follow the source; punctuation-only characters
  that the development avoids in string literals are elided from messages.
-/

/-- The Python exception kinds raised by the modelled code
(src/pyexchange/exceptions is summarized by its constructors here). -/
inductive PyError where
  | valueError (msg : String)
  | typeError (msg : String)
  | attributeError
  | failedExchange (msg : String)
  | staleChangeKey (msg : String)
  | itemNotFound (msg : String)
  | irresolvableConflict (msg : String)
  | internalServerTransient (msg : String)
deriving DecidableEq, Repr

/-- Request bodies built by the `soap_request` module (an external
RequestBuilder per the spec); each carries exactly the arguments the
modelled call sites pass that the claims observe. -/
inductive Body where
  | getItem (exchangeId : Option String) (format : String)
  | newEvent
  | updateItem (dirty : List String) (opType : String)
  | deleteEvent
  | moveEvent (folderId : String)
  | getFolderItems (folderType : String) (format : String)
  | deleteFolder
deriving DecidableEq, Repr

/-- Parsed content of a response, as consumed by
`_parse_id_and_change_key_from_response`: the first `ItemId`/`FolderId`
element's `Id` and `ChangeKey` attributes (each attribute may be absent),
or `none` when no such element exists. -/
abbrev Resp := Option (Option String × Option String)

/-- `_parse_id_and_change_key_from_response`: returns the two attributes of
the first id element, or `(None, None)` when the xpath matched nothing. -/
def parseIdAndChangeKey : Resp → Option String × Option String
  | none => (none, none)
  | some p => p

/-- Python truthiness test `not x` for an attribute that is `None` or a
string: true exactly for `None` and the empty string. -/
def falsy : Option String → Bool
  | none => true
  | some s => s.isEmpty

/-- State of an `Exchange2010CalendarEvent` as far as the modelled
operations read or write it.  `recurrenceEndDate` is `some d` when the
attribute holds a `datetime.date` with ordinal `d` and `none` when it holds
anything else (including `None`); `recurrenceInterval` is `some n` when the
attribute holds an `int` and `none` otherwise; `startDate` is the ordinal
of `self.start.date()` when `start` is set. -/
structure CalendarEvent where
  id : Option String
  changeKey : Option String
  dirty : List String
  recurrence : Option String
  recurrenceEndDate : Option Int
  recurrenceInterval : Option Int
  recurrenceDays : Option String
  startDate : Option Int
  baseOk : Bool
  calendarId : String
deriving DecidableEq, Repr

/-- Modelled from the spec: the `WEEKLY_DAYS` class constant of
`BaseExchangeCalendarEvent` (file base/calendar.py is not under src/); the
spec requires a fixed seven-value weekday vocabulary. -/
def WEEKLY_DAYS : List String :=
  ["Sunday", "Monday", "Tuesday", "Wednesday", "Thursday", "Friday", "Saturday"]

/-- Modelled from the spec: `BaseExchangeCalendarEvent.validate` (file
base/calendar.py is not under src/).  The spec states validation requires
the required fields to be present, a caller-input failure otherwise; the
outcome of that presence check is carried abstractly by the event's
`baseOk` flag. -/
def baseValidate (e : CalendarEvent) : Except PyError Unit :=
  if e.baseOk then .ok () else .error (.valueError "required field missing")

/-- `Exchange2010CalendarEvent.validate`: the recurrence checks run first,
in source order, and `super().validate()` runs last. -/
def validate (e : CalendarEvent) : Except PyError Unit :=
  match e.recurrence with
  | none => baseValidate e
  | some r =>
    match e.recurrenceEndDate with
    | none => .error (.valueError "recurrence_end_date must be of type date")
    | some d =>
      match e.startDate with
      | none => .error .attributeError
      | some s =>
        if d < s then .error (.valueError "recurrence_end_date must be after start")
        else if r = "daily" then
          match e.recurrenceInterval with
          | some n =>
            if 1 ≤ n ∧ n ≤ 999 then baseValidate e
            else .error (.valueError "recurrence_interval must be an int in the range from 1 to 999")
          | none => .error (.valueError "recurrence_interval must be an int in the range from 1 to 999")
        else if r = "weekly" then
          match e.recurrenceInterval with
          | some n =>
            if 1 ≤ n ∧ n ≤ 99 then
              match e.recurrenceDays with
              | none => .error (.valueError "recurrence_days is required")
              | some days =>
                match (days.splitOn " ").find? (fun day => !(WEEKLY_DAYS.contains day)) with
                | some day => .error (.valueError ("recurrence_days received unknown value: " ++ day))
                | none => baseValidate e
            else .error (.valueError "recurrence_interval must be an int in the range from 1 to 99")
          | none => .error (.valueError "recurrence_interval must be an int in the range from 1 to 99")
        else if r = "monthly" then
          match e.recurrenceInterval with
          | some n =>
            if 1 ≤ n ∧ n ≤ 99 then baseValidate e
            else .error (.valueError "recurrence_interval must be an int in the range from 1 to 99")
          | none => .error (.valueError "recurrence_interval must be an int in the range from 1 to 99")
        else if r = "yearly" then baseValidate e
        else .error (.valueError ("recurrence received unknown value: " ++ r))

/-- The tuple `VALID_UPDATE_OPERATION_TYPES` from
`Exchange2010CalendarEvent.update`. -/
def VALID_UPDATE_OPERATION_TYPES : List String :=
  ["SendToNone", "SendOnlyToAll", "SendOnlyToChanged",
   "SendToAllAndSaveCopy", "SendToChangedAndSaveCopy"]

/-- `Exchange2010CalendarEvent.refresh_change_key`: sends a `get_item` for
the current id with format IdOnly and overwrites `_id`/`_change_key` with
the parsed response.  `calls` is the log of bodies already sent by the
enclosing operation. -/
def refreshChangeKey (e : CalendarEvent) (oracle : Nat → Resp)
    (calls : List Body) : CalendarEvent × List Body :=
  let resp := oracle calls.length
  let calls := calls ++ [Body.getItem e.id "IdOnly"]
  let p := parseIdAndChangeKey resp
  ({ e with id := p.1, changeKey := p.2 }, calls)

/-- `Exchange2010CalendarEvent.update`.  `sendOnlyToChanged` models the
deprecated `send_only_to_changed_attendees` keyword argument (`none` =
absent); when truthy it rewrites the operation type before the validity
check, exactly as the source does. -/
def update (e : CalendarEvent) (opType : String)
    (sendOnlyToChanged : Option Bool) (oracle : Nat → Resp) :
    Except PyError CalendarEvent × List Body :=
  if falsy e.id then
    (.error (.typeError "You cant update an event that hasnt been created yet."), [])
  else
    let opT := match sendOnlyToChanged with
      | some true => "SendToChangedAndSaveCopy"
      | _ => opType
    if VALID_UPDATE_OPERATION_TYPES.contains opT then
      match validate e with
      | .error err => (.error err, [])
      | .ok _ =>
        if e.dirty.isEmpty then (.ok e, [])
        else
          let r := refreshChangeKey e oracle []
          let calls := r.2 ++ [Body.updateItem r.1.dirty opT]
          (.ok { r.1 with dirty := [] }, calls)
    else (.error (.valueError "calendar_item_update_operation_type has unknown value"), [])

/-- `Exchange2010CalendarEvent.create`: validation, then one `new_event`
send; the parsed id/change key from the response overwrite the local ones.
The source performs no precondition check on `id`. -/
def create (e : CalendarEvent) (oracle : Nat → Resp) :
    Except PyError CalendarEvent × List Body :=
  match validate e with
  | .error err => (.error err, [])
  | .ok _ =>
    let resp := oracle 0
    let p := parseIdAndChangeKey resp
    (.ok { e with id := p.1, changeKey := p.2 }, [Body.newEvent])

/-- `Exchange2010CalendarEvent.cancel`: id precondition, refresh change
key, send the delete.  The Python method returns `None`; the `.ok` value
here is the entity state after the call, whose `_id`/`_change_key` are
whatever the refresh parsed — the source never clears them. -/
def cancel (e : CalendarEvent) (oracle : Nat → Resp) :
    Except PyError CalendarEvent × List Body :=
  if falsy e.id then
    (.error (.typeError "You cant delete an event that hasnt been created yet."), [])
  else
    let r := refreshChangeKey e oracle []
    (.ok r.1, r.2 ++ [Body.deleteEvent])

/-- `Exchange2010CalendarEvent.resend_invitations`: id precondition, then
the unsaved-changes guard, then refresh and an `update_item` with an empty
attribute list and operation type SendOnlyToAll. -/
def resendInvitations (e : CalendarEvent) (oracle : Nat → Resp) :
    Except PyError CalendarEvent × List Body :=
  if falsy e.id then
    (.error (.typeError "You cant send invites for an event that hasnt been created yet."), [])
  else if !e.dirty.isEmpty then
    (.error (.valueError "There are unsaved changes to this invite - please update it first"), [])
  else
    let r := refreshChangeKey e oracle []
    (.ok r.1, r.2 ++ [Body.updateItem [] "SendOnlyToAll"])

/-- `Exchange2010CalendarEvent.move_to`.  `folderId` is a string by type,
so the source's `isinstance(folder_id, BASESTRING_TYPES)` guard cannot
fire in the model; the empty-string guard models `if not folder_id`. -/
def moveTo (e : CalendarEvent) (folderId : String) (oracle : Nat → Resp) :
    Except PyError CalendarEvent × List Body :=
  if folderId.isEmpty then
    (.error (.typeError "You cant move an event to a non-existant folder"), [])
  else if falsy e.id then
    (.error (.typeError "You cant move an event that hasnt been created yet."), [])
  else
    let r := refreshChangeKey e oracle []
    let resp := oracle r.2.length
    let calls := r.2 ++ [Body.moveEvent folderId]
    let p := parseIdAndChangeKey resp
    if falsy p.1 then
      (.error (.valueError "MoveItem returned success but requested item not moved"), calls)
    else
      (.ok { r.1 with id := p.1, changeKey := p.2, calendarId := folderId }, calls)

/-- State of an `Exchange2010Folder` as far as `delete` reads or writes
it. -/
structure ExchangeFolder where
  id : Option String
  changeKey : Option String
deriving DecidableEq, Repr

/-- `Exchange2010Folder.delete`: id precondition, then one `delete_folder`
send (no change-key refresh in the source), then `_id` and `_change_key`
are set to `None`.  The Python method returns `None`; the `.ok` value is
the entity state after the call. -/
def folderDelete (f : ExchangeFolder) (_oracle : Nat → Resp) :
    Except PyError ExchangeFolder × List Body :=
  if falsy f.id then
    (.error (.typeError "You cant delete a folder that hasnt been created yet."), [])
  else
    (.ok { f with id := none, changeKey := none }, [Body.deleteFolder])

/-- The tuple `allowed_folder_types` from
`Exchange2010FolderList.__init__`, in source order. -/
def allowedFolderTypes : List String :=
  ["contacts", "calendar", "tasks", "all", "inbox"]

/-- The cascaded (non-elif) assignments choosing `folder_xml_name` in
`Exchange2010FolderList._parse_response_for_all_folders`. -/
def folderXmlName (folderType : String) : String :=
  let n := "Folder"
  let n := if folderType = "calendar" then "CalendarFolder" else n
  let n := if folderType = "tasks" then "TasksFolder" else n
  let n := if folderType = "contacts" then "ContactsFolder" else n
  let n := if folderType = "inbox" then "Folder" else n
  n

/-- `Exchange2010FolderList._parse_response_for_all_folders` restricted to
its effect on `self.count`: the response is the list of element tags under
the find-folder result path, and the parse counts those matching the xml
name for the requested folder type (adding nothing when none match). -/
def parseResponseForAllFolders (count : Nat) (respTags : List String)
    (folderType : String) : Nat :=
  let folders := respTags.filter (fun t => t = folderXmlName folderType)
  if !folders.isEmpty then count + folders.length else count

/-- `Exchange2010FolderList.__init__` restricted to its folder-type
dispatch, network calls and `self.count`.  The oracle gives the element
tags of the n-th response.  For `folder_type != 'all'` one
`get_folder_items` query is sent; for `'all'` the source iterates
`allowed_folder_types[:-1]`. -/
def folderListInit (folderType : String) (oracle : Nat → List String) :
    Except PyError Nat × List Body :=
  if !(allowedFolderTypes.contains folderType) then
    (.error (.failedExchange ""), [])
  else if folderType ≠ "all" then
    let tags := oracle 0
    (.ok (parseResponseForAllFolders 0 tags folderType),
     [Body.getFolderItems folderType "AllProperties"])
  else
    let step := allowedFolderTypes.dropLast.foldl
      (fun (acc : Nat × List Body) ft =>
        let tags := oracle acc.2.length
        (parseResponseForAllFolders acc.1 tags ft,
         acc.2 ++ [Body.getFolderItems ft "AllProperties"]))
      (0, [])
    (.ok step.1, step.2)

/-- A parsed response document, flattened to the `(tag, text)` pairs of its
elements in document order — exactly the view the fault classifier's
`//m:ResponseCode` query consumes.  A `text` of `""` stands for an element
with no text. -/
structure ResponseTree where
  nodes : List (String × String)
deriving DecidableEq, Repr

/-- The xpath `//m:ResponseCode` of `_check_for_exchange_fault`: the texts
of all ResponseCode elements, in document order. -/
def responseCodes (r : ResponseTree) : List String :=
  (r.nodes.filter (fun n => n.1 = "ResponseCode")).map (fun n => n.2)

/-- One iteration of the code loop in
`Exchange2010Service._check_for_exchange_fault`: the error a given status
code raises, or `none` when the code is passed over (NoError and the
documented non-fatal occurrence-index code). -/
def classifyCode (c : String) : Option PyError :=
  if c = "ErrorChangeKeyRequiredForWriteOperations" then
    some (.staleChangeKey ("Exchange Fault (" ++ c ++ ") from Exchange server"))
  else if c = "ErrorItemNotFound" then
    some (.itemNotFound ("Exchange Fault (" ++ c ++ ") from Exchange server"))
  else if c = "ErrorIrresolvableConflict" then
    some (.irresolvableConflict ("Exchange Fault (" ++ c ++ ") from Exchange server"))
  else if c = "ErrorInternalServerTransientError" then
    some (.internalServerTransient ("Exchange Fault (" ++ c ++ ") from Exchange server"))
  else if c = "ErrorCalendarOccurrenceIndexIsOutOfRecurrenceRange" then none
  else if c ≠ "NoError" then
    some (.failedExchange ("Exchange Fault (" ++ c ++ ") from Exchange server"))
  else none

/-- The `for code in response_codes` loop: raise at the first fatal code,
succeed when the list is exhausted. -/
def checkCodes : List String → Except PyError Unit
  | [] => .ok ()
  | c :: rest =>
    match classifyCode c with
    | some err => .error err
    | none => checkCodes rest

/-- `Exchange2010Service._check_for_exchange_fault`. -/
def checkForExchangeFault (r : ResponseTree) : Except PyError Unit :=
  let codes := responseCodes r
  if codes.isEmpty then
    .error (.failedExchange "Exchange server did not return a status response")
  else checkCodes codes

/-- One instance of `BaseExchangeContactItem` / `BaseExchangeMailItem` /
`BaseExchangeTaskItem` (the three base files define the identical
dirty-tracking skeleton).  `ownDirty = none` models the Python instance
having no `_dirty_attributes` entry in its own dict, so attribute lookup
resolves to the class-level set; `_reset_dirty_attributes` installs an
instance-level set (`some`).  `tracking` is the instance's
`_track_dirty_attributes` flag. -/
structure PyItemInstance where
  ownDirty : Option (List String)
  tracking : Bool
deriving DecidableEq, Repr

/-- Runtime state of one such class and its instances: the mutable
class-level `_dirty_attributes` set plus every live instance. -/
structure ItemClassState where
  classDirty : List String
  insts : List PyItemInstance
deriving DecidableEq, Repr

/-- Python `set.add`: insert the name if absent (uniqueness is the set's
only invariant; order of this list model is immaterial). -/
def setAdd (s : List String) (k : String) : List String :=
  if s.contains k then s else s ++ [k]

/-- The `_dirty_attributes` set instance `j` observes: its own set once it
has one, otherwise the class-level set. -/
def observedDirty (st : ItemClassState) (j : Nat) : List String :=
  match st.insts.get? j with
  | some inst => inst.ownDirty.getD st.classDirty
  | none => []

/-- Python `key.startswith("_")`: whether the attribute name has a leading
underscore (the private-name test of the dirty tracker). -/
def startsWithUnderscore (key : String) : Bool :=
  match key.data with
  | [] => false
  | c :: _ => c = '_'

/-- `BaseExchange*Item.__setattr__` on instance `i` for attribute `key`:
while tracking is on and the name is public, `self._dirty_attributes.add`
mutates whichever set the instance resolves — the shared class-level set
when the instance has none of its own. -/
def setattrTracked (st : ItemClassState) (i : Nat) (key : String) :
    ItemClassState :=
  match st.insts.get? i with
  | none => st
  | some inst =>
    if inst.tracking && !(startsWithUnderscore key) then
      match inst.ownDirty with
      | none => { st with classDirty := setAdd st.classDirty key }
      | some s =>
        { st with insts := st.insts.set i { inst with ownDirty := some (setAdd s key) } }
    else st

/-- `BaseExchange*Item._reset_dirty_attributes`: `self._dirty_attributes =
set()` creates a fresh instance-level set. -/
def resetDirtyAttributes (st : ItemClassState) (i : Nat) : ItemClassState :=
  match st.insts.get? i with
  | none => st
  | some inst =>
    { st with insts := st.insts.set i { inst with ownDirty := some [] } }

lemma checkCodes_ok_of_all_passed (l : List String)
    (h : ∀ c ∈ l, classifyCode c = none) : checkCodes l = .ok () := by
  induction l with
  | nil => rfl
  | cons c rest ih =>
    have hc := h c (by simp)
    simp only [checkCodes, hc]
    exact ih (fun b hb => h b (by simp [hb]))

lemma checkCodes_append_passed (pre : List String) (c : String)
    (post : List String) (h : ∀ b ∈ pre, classifyCode b = none) :
    checkCodes (pre ++ c :: post) = checkCodes (c :: post) := by
  induction pre with
  | nil => rfl
  | cons b rest ih =>
    have hb := h b (by simp)
    simp only [List.cons_append, checkCodes, hb]
    exact ih (fun x hx => h x (by simp [hx]))

/-- C8: a response tree with no status-code element at all makes the fault
classifier raise the generic FailedExchangeException for a missing status
response, whatever else the tree contains. -/
theorem c8_no_status_code_raises (r : ResponseTree)
    (h : responseCodes r = []) :
    checkForExchangeFault r =
      .error (.failedExchange "Exchange server did not return a status response") := by
  unfold checkForExchangeFault
  simp [h]

theorem c8_witness :
    responseCodes ⟨[("Envelope", ""), ("CalendarItem", "party")]⟩ = [] ∧
    checkForExchangeFault ⟨[("Envelope", ""), ("CalendarItem", "party")]⟩ =
      .error (.failedExchange "Exchange server did not return a status response") :=
  ⟨rfl, c8_no_status_code_raises ⟨[("Envelope", ""), ("CalendarItem", "party")]⟩ rfl⟩

/-- C9: when a response carries status codes and all of them are NoError or
ErrorCalendarOccurrenceIndexIsOutOfRecurrenceRange, the fault classifier
raises nothing; and a non-NoError code with no specific mapping (reached
after only passed-over codes) raises the generic failure carrying the code
text. -/
theorem c9_fault_classifier (r : ResponseTree) :
    (responseCodes r ≠ [] →
      (∀ c ∈ responseCodes r,
        c = "NoError" ∨ c = "ErrorCalendarOccurrenceIndexIsOutOfRecurrenceRange") →
      checkForExchangeFault r = .ok ()) ∧
    (∀ pre c post, responseCodes r = pre ++ c :: post →
      (∀ b ∈ pre, classifyCode b = none) →
      c ≠ "NoError" →
      c ≠ "ErrorChangeKeyRequiredForWriteOperations" →
      c ≠ "ErrorItemNotFound" →
      c ≠ "ErrorIrresolvableConflict" →
      c ≠ "ErrorInternalServerTransientError" →
      c ≠ "ErrorCalendarOccurrenceIndexIsOutOfRecurrenceRange" →
      checkForExchangeFault r =
        .error (.failedExchange ("Exchange Fault (" ++ c ++ ") from Exchange server"))) := by
  constructor
  · intro hne hall
    unfold checkForExchangeFault
    have hempty : (responseCodes r).isEmpty = false := by
      cases hcase : responseCodes r with
      | nil => exact absurd hcase hne
      | cons a l => rfl
    simp only [hempty, Bool.false_eq_true, if_false]
    exact checkCodes_ok_of_all_passed _ (fun c hc => by
      rcases hall c hc with h1 | h1 <;> simp [h1, classifyCode])
  · intro pre c post hdecomp hpre h0 h1 h2 h3 h4 h5
    unfold checkForExchangeFault
    have hempty : (responseCodes r).isEmpty = false := by
      rw [hdecomp]
      cases pre <;> rfl
    simp only [hempty, Bool.false_eq_true, if_false]
    rw [hdecomp, checkCodes_append_passed pre c post hpre]
    have hclass : classifyCode c =
        some (.failedExchange ("Exchange Fault (" ++ c ++ ") from Exchange server")) := by
      unfold classifyCode
      rw [if_neg h1, if_neg h2, if_neg h3, if_neg h4, if_neg h5, if_pos h0]
    simp only [checkCodes, hclass]

theorem c9_witness :
    checkForExchangeFault
        ⟨[("ResponseCode", "NoError"),
          ("ResponseCode", "ErrorCalendarOccurrenceIndexIsOutOfRecurrenceRange")]⟩ = .ok () ∧
    checkForExchangeFault
        ⟨[("ResponseCode", "NoError"), ("ResponseCode", "ErrorMissedTheBus")]⟩ =
      .error (.failedExchange "Exchange Fault (ErrorMissedTheBus) from Exchange server") :=
  ⟨(c9_fault_classifier
      ⟨[("ResponseCode", "NoError"),
        ("ResponseCode", "ErrorCalendarOccurrenceIndexIsOutOfRecurrenceRange")]⟩).1
      (by decide) (by decide),
   (c9_fault_classifier
      ⟨[("ResponseCode", "NoError"), ("ResponseCode", "ErrorMissedTheBus")]⟩).2
      ["NoError"] "ErrorMissedTheBus" [] (by decide) (by decide)
      (by decide) (by decide) (by decide) (by decide) (by decide) (by decide)⟩

/-- C10: for the contact, mail and task item classes, the dirty-attribute
set is a single class-level container: as long as neither instance has had
`_reset_dirty_attributes` install its own set, a tracked public-field
assignment on instance `i` makes the field name appear in the dirty set
observed on any instance `j` of the same class. -/
theorem c10_shared_class_dirty_set (st : ItemClassState) (i j : Nat)
    (key : String) (insti instj : PyItemInstance)
    (hi : st.insts.get? i = some insti)
    (hj : st.insts.get? j = some instj)
    (htrack : insti.tracking = true)
    (hiown : insti.ownDirty = none)
    (hjown : instj.ownDirty = none)
    (hpub : startsWithUnderscore key = false) :
    key ∈ observedDirty (setattrTracked st i key) j := by
  unfold setattrTracked
  rw [hi]
  simp only [htrack, hpub, hiown, Bool.not_false, Bool.and_self, if_true]
  unfold observedDirty
  simp only [hj, hjown, Option.getD_none]
  unfold setAdd
  by_cases hc : st.classDirty.contains key
  · rw [if_pos hc]
    exact List.mem_of_elem_eq_true hc
  · rw [if_neg hc]
    simp

theorem c10_witness :
    "first_name" ∈
      observedDirty
        (setattrTracked ⟨[], [⟨none, true⟩, ⟨none, false⟩]⟩ 0 "first_name") 1 :=
  c10_shared_class_dirty_set ⟨[], [⟨none, true⟩, ⟨none, false⟩]⟩ 0 1
    "first_name" ⟨none, true⟩ ⟨none, false⟩ rfl rfl rfl rfl rfl (by decide)

/-- A minimal unsaved event fixture; concrete inputs below adjust its
fields. -/
def evBase : CalendarEvent :=
  { id := none, changeKey := none, dirty := [], recurrence := none,
    recurrenceEndDate := none, recurrenceInterval := none,
    recurrenceDays := none, startDate := none, baseOk := true,
    calendarId := "calendar" }

/-- A transport oracle whose every response parses to id AAAfoo and change
key ck2. -/
def oracleEv : Nat → Resp := fun _ => some (some "AAAfoo", some "ck2")


/-- A persisted event with a weekly recurrence whose interval is the
integer 0 and whose end date is in range: every C1 precondition holds, yet
its fields fail validation. -/
def evC1bad : CalendarEvent :=
  { evBase with
    id := some "AAAbad"
    changeKey := some "ck1"
    dirty := ["recurrence_interval"]
    recurrence := some "weekly"
    recurrenceInterval := some 0
    recurrenceDays := some "Monday"
    recurrenceEndDate := some 10
    startDate := some 1 }

/-- A persisted event with one dirty field and fields that pass
validation. -/
def evC1ok : CalendarEvent :=
  { evBase with
    id := some "AAAone"
    changeKey := some "ck1"
    dirty := ["subject"] }

/-- C1 as frozen is refuted by an event meeting all its hypotheses (id
set, dirty set non-empty, valid notification scope) whose fields fail
validation: `update()` raises before any network call and the dirty set
stays non-empty. -/
theorem c1_counterexample :
    falsy evC1bad.id = false ∧
    evC1bad.dirty ≠ [] ∧
    VALID_UPDATE_OPERATION_TYPES.contains "SendToAllAndSaveCopy" = true ∧
    update evC1bad "SendToAllAndSaveCopy" none oracleEv =
      (.error (.valueError "recurrence_interval must be an int in the range from 1 to 99"), []) := by
  refine ⟨rfl, by decide, rfl, ?_⟩
  rfl

/-- C1 amended: on a persisted event whose fields pass validation, with a
valid notification-scope option and a non-empty dirty set, `update()`
sends exactly two requests — first the id/change-key refresh by the
current id, then an `update_item` scoped to exactly the dirty field
names — and the returned entity has an empty dirty set. -/
theorem c1_update_dirty_two_calls (e : CalendarEvent) (op : String)
    (o : Nat → Resp)
    (hid : falsy e.id = false)
    (hop : VALID_UPDATE_OPERATION_TYPES.contains op = true)
    (hval : validate e = .ok ())
    (hd : e.dirty ≠ []) :
    (update e op none o).2 =
      [Body.getItem e.id "IdOnly", Body.updateItem e.dirty op] ∧
    ∃ e2, (update e op none o).1 = .ok e2 ∧ e2.dirty = [] := by
  have hde : e.dirty.isEmpty = false := by
    cases hcase : e.dirty with
    | nil => exact absurd hcase hd
    | cons a l => rfl
  unfold update
  simp only [hid, Bool.false_eq_true, if_false, hop, if_true, hval, hde,
    refreshChangeKey, List.length_nil, List.nil_append, List.cons_append]
  exact ⟨trivial, _, rfl, rfl⟩

theorem c1_witness :
    (update evC1ok "SendToNone" none oracleEv).2 =
      [Body.getItem (some "AAAone") "IdOnly",
       Body.updateItem ["subject"] "SendToNone"] ∧
    ∃ e2, (update evC1ok "SendToNone" none oracleEv).1 = .ok e2 ∧
          e2.dirty = [] :=
  c1_update_dirty_two_calls evC1ok "SendToNone" oracleEv rfl rfl rfl (by decide)

/-- A persisted event with an empty dirty set and fields that pass
validation. -/
def evC2 : CalendarEvent :=
  { evBase with
    id := some "AAAtwo"
    changeKey := some "ck1" }

/-- C2: on a persisted event whose fields pass validation, with a valid
notification-scope option and an empty dirty set, `update()` sends nothing
and returns the entity itself — id, change key and every field
unchanged. -/
theorem c2_update_empty_dirty_noop (e : CalendarEvent) (op : String)
    (o : Nat → Resp)
    (hid : falsy e.id = false)
    (hop : VALID_UPDATE_OPERATION_TYPES.contains op = true)
    (hval : validate e = .ok ())
    (hd : e.dirty = []) :
    update e op none o = (.ok e, []) := by
  unfold update
  simp only [hid, Bool.false_eq_true, if_false, hop, if_true, hval, hd,
    List.isEmpty_nil]

theorem c2_witness :
    update evC2 "SendToAllAndSaveCopy" none oracleEv = (.ok evC2, []) :=
  c2_update_empty_dirty_noop evC2 "SendToAllAndSaveCopy" oracleEv rfl rfl rfl rfl

/-- A persisted event (id already set) with valid fields, on which C3
says `create()` must fail before any network call. -/
def evC3 : CalendarEvent :=
  { evBase with
    id := some "AAAexisting"
    changeKey := some "ck1" }

/-- C3 as frozen is refuted on the create() half: the source's `create`
has no id precondition, so re-invoking it on an entity whose id is already
set raises nothing and proceeds to send a `new_event` request. -/
theorem c3_counterexample :
    evC3.id = some "AAAexisting" ∧
    create evC3 oracleEv =
      (.ok { evC3 with id := some "AAAfoo", changeKey := some "ck2" },
       [Body.newEvent]) := by
  exact ⟨rfl, rfl⟩

/-- C3 amended: `cancel()`, `move_to()` (event) and `delete()` (folder)
each fail with a caller-input TypeError before any network call when id is
unset, while `create()` performs no id precondition check at all: on any
entity passing validation — its id set or not — it sends the `new_event`
request. -/
theorem c3_lifecycle_preconditions (e e2 : CalendarEvent)
    (f : ExchangeFolder) (fid : String) (o : Nat → Resp)
    (he : falsy e.id = true)
    (hf : falsy f.id = true)
    (hfid : fid.isEmpty = false)
    (hv : validate e2 = .ok ()) :
    cancel e o =
      (.error (.typeError "You cant delete an event that hasnt been created yet."), []) ∧
    moveTo e fid o =
      (.error (.typeError "You cant move an event that hasnt been created yet."), []) ∧
    folderDelete f o =
      (.error (.typeError "You cant delete a folder that hasnt been created yet."), []) ∧
    ((create e2 o).2 = [Body.newEvent] ∧ ∃ r, (create e2 o).1 = .ok r) := by
  refine ⟨?_, ?_, ?_, ?_⟩
  · unfold cancel
    simp only [he, if_true]
  · unfold moveTo
    simp only [hfid, Bool.false_eq_true, if_false, he, if_true]
  · unfold folderDelete
    simp only [hf, if_true]
  · unfold create
    simp only [hv]
    exact ⟨trivial, _, rfl⟩

theorem c3_witness :
    (cancel { evBase with startDate := some 3 } oracleEv =
      (.error (.typeError "You cant delete an event that hasnt been created yet."), []) ∧
    moveTo { evBase with startDate := some 3 } "AAAdest" oracleEv =
      (.error (.typeError "You cant move an event that hasnt been created yet."), []) ∧
    folderDelete { id := none, changeKey := none } oracleEv =
      (.error (.typeError "You cant delete a folder that hasnt been created yet."), []) ∧
    ((create evC3 oracleEv).2 = [Body.newEvent] ∧
     ∃ r, (create evC3 oracleEv).1 = .ok r)) :=
  c3_lifecycle_preconditions { evBase with startDate := some 3 } evC3
    { id := none, changeKey := none } "AAAdest" oracleEv rfl rfl rfl rfl

/-- A persisted event on which C4 examines `cancel()`. -/
def evC4 : CalendarEvent :=
  { evBase with
    id := some "AAAdel"
    changeKey := some "ck1" }

/-- A persisted folder on which C4 examines `delete()`. -/
def fC4 : ExchangeFolder :=
  { id := some "FFFdel", changeKey := some "fk1" }

/-- C4 as frozen is refuted twice over: after a successful event
`cancel()` the id and change key hold whatever the change-key refresh
parsed — the source never clears them — and the folder's `delete()` sends
the delete as its only request, with no change-key refresh before it. -/
theorem c4_counterexample :
    ((cancel evC4 oracleEv).1 =
        .ok { evC4 with id := some "AAAfoo", changeKey := some "ck2" } ∧
      (some "AAAfoo" : Option String) ≠ none) ∧
    (folderDelete fC4 oracleEv).2 = [Body.deleteFolder] := by
  refine ⟨⟨rfl, by decide⟩, rfl⟩

/-- C4 amended: on a persisted entity, the event's `cancel()` refreshes
the change key and then sends the delete, leaving id and change key as the
refresh parsed them (not cleared); the folder's `delete()` sends the
delete without any refresh and then clears id and change key to None. -/
theorem c4_delete_behaviour (e : CalendarEvent) (f : ExchangeFolder)
    (o : Nat → Resp)
    (he : falsy e.id = false)
    (hf : falsy f.id = false) :
    cancel e o =
      (.ok { e with id := (parseIdAndChangeKey (o 0)).1,
                    changeKey := (parseIdAndChangeKey (o 0)).2 },
       [Body.getItem e.id "IdOnly", Body.deleteEvent]) ∧
    folderDelete f o =
      (.ok { f with id := none, changeKey := none }, [Body.deleteFolder]) := by
  constructor
  · unfold cancel
    simp only [he, Bool.false_eq_true, if_false, refreshChangeKey,
      List.length_nil, List.nil_append, List.cons_append]
  · unfold folderDelete
    simp only [hf, Bool.false_eq_true, if_false]

theorem c4_witness :
    (cancel evC4 oracleEv =
      (.ok { evC4 with id := some "AAAfoo", changeKey := some "ck2" },
       [Body.getItem (some "AAAdel") "IdOnly", Body.deleteEvent]) ∧
    folderDelete fC4 oracleEv =
      (.ok { fC4 with id := none, changeKey := none }, [Body.deleteFolder])) :=
  c4_delete_behaviour evC4 fC4 oracleEv rfl rfl

/-- A folder-list transport oracle: the n-th response holds these folder
element tags. -/
def oracleFolders : Nat → List String := fun n =>
  if n = 0 then ["ContactsFolder", "ContactsFolder"]
  else if n = 1 then ["CalendarFolder"]
  else if n = 2 then ["TasksFolder", "SearchFolder"]
  else ["Folder"]

/-- C5 evaluated at its failing input, folder kind all: because
`allowed_folder_types[:-1]` drops inbox rather than all, the list issues
its four find-folder queries for contacts, calendar, tasks and the
pseudo-kind all — never for inbox — contradicting the code's own comment
and the claim.  The aggregate count is still the sum of the per-query
match counts (2 + 1 + 1 + 1 here). -/
theorem c5_all_folder_queries :
    (folderListInit "all" oracleFolders).2 =
      [Body.getFolderItems "contacts" "AllProperties",
       Body.getFolderItems "calendar" "AllProperties",
       Body.getFolderItems "tasks" "AllProperties",
       Body.getFolderItems "all" "AllProperties"] ∧
    (folderListInit "all" oracleFolders).1 = .ok 5 := by
  exact ⟨rfl, rfl⟩

/-- A persisted event with unsaved changes, for the failing half of C6. -/
def evC6dirty : CalendarEvent :=
  { evBase with
    id := some "AAAsix"
    changeKey := some "ck1"
    dirty := ["subject"] }

/-- A persisted event with no unsaved changes, for the sending half of
C6. -/
def evC6clean : CalendarEvent :=
  { evBase with
    id := some "AAAsix"
    changeKey := some "ck1" }

/-- C6: on a persisted event, `resend_invitations()` with a non-empty
dirty set raises the unsaved-changes ValueError with zero network calls;
with an empty dirty set it refreshes the change key and sends one
`update_item` with zero field changes and the SendOnlyToAll scope. -/
theorem c6_resend_invitations (e : CalendarEvent) (o : Nat → Resp)
    (hid : falsy e.id = false) :
    (e.dirty ≠ [] →
      resendInvitations e o =
        (.error (.valueError "There are unsaved changes to this invite - please update it first"),
         [])) ∧
    (e.dirty = [] →
      resendInvitations e o =
        (.ok { e with id := (parseIdAndChangeKey (o 0)).1,
                      changeKey := (parseIdAndChangeKey (o 0)).2 },
         [Body.getItem e.id "IdOnly", Body.updateItem [] "SendOnlyToAll"])) := by
  constructor
  · intro hd
    have hde : e.dirty.isEmpty = false := by
      cases hcase : e.dirty with
      | nil => exact absurd hcase hd
      | cons a l => rfl
    unfold resendInvitations
    simp only [hid, Bool.false_eq_true, if_false, hde, Bool.not_false, if_true]
  · intro hd
    unfold resendInvitations
    simp only [hid, Bool.false_eq_true, if_false, hd, List.isEmpty_nil,
      Bool.not_true, refreshChangeKey, List.length_nil, List.nil_append,
      List.cons_append]

theorem c6_witness :
    (resendInvitations evC6dirty oracleEv =
      (.error (.valueError "There are unsaved changes to this invite - please update it first"),
       []) ∧
    resendInvitations evC6clean oracleEv =
      (.ok { evC6clean with id := some "AAAfoo", changeKey := some "ck2" },
       [Body.getItem (some "AAAsix") "IdOnly",
        Body.updateItem [] "SendOnlyToAll"])) :=
  ⟨(c6_resend_invitations evC6dirty oracleEv rfl).1 (by decide),
   (c6_resend_invitations evC6clean oracleEv rfl).2 rfl⟩

/-- An event with weekly recurrence and interval 0 whose
recurrence_end_date holds no date value: validation fails, but not with
the interval range error. -/
def evC7bad : CalendarEvent :=
  { evBase with
    id := some "AAAseven"
    changeKey := some "ck1"
    recurrence := some "weekly"
    recurrenceInterval := some 0
    recurrenceDays := some "Monday"
    recurrenceEndDate := none
    startDate := some 1 }

/-- A well-prepared event with weekly recurrence and interval 0, for the
amended C7. -/
def evC7range : CalendarEvent :=
  { evBase with
    id := some "AAAseven"
    changeKey := some "ck1"
    recurrence := some "weekly"
    recurrenceInterval := some 0
    recurrenceDays := some "Monday"
    recurrenceEndDate := some 10
    startDate := some 1 }

/-- C7 as frozen is refuted by an event with weekly recurrence and
interval 0 whose recurrence_end_date is not a date: validation fails with
the end-date type error, not the interval range error (though still before
any network call). -/
theorem c7_counterexample :
    validate evC7bad = .error (.valueError "recurrence_end_date must be of type date") ∧
    PyError.valueError "recurrence_end_date must be of type date" ≠
      PyError.valueError "recurrence_interval must be an int in the range from 1 to 99" ∧
    create evC7bad oracleEv =
      (.error (.valueError "recurrence_end_date must be of type date"), []) := by
  refine ⟨rfl, by decide, rfl⟩

/-- C7 amended: an event with weekly recurrence and integer interval 0
whose recurrence_end_date is a date no earlier than the start date fails
validation with the 1-to-99 range error; `create()` raises it before any
network call, and so does `update()` when its own earlier guards (id set,
valid notification-scope option) pass. -/
theorem c7_weekly_zero_interval_range_error (e : CalendarEvent)
    (d s : Int) (op : String) (o : Nat → Resp)
    (hr : e.recurrence = some "weekly")
    (hi : e.recurrenceInterval = some 0)
    (hed : e.recurrenceEndDate = some d)
    (hsd : e.startDate = some s)
    (hds : ¬ d < s) :
    validate e =
      .error (.valueError "recurrence_interval must be an int in the range from 1 to 99") ∧
    create e o =
      (.error (.valueError "recurrence_interval must be an int in the range from 1 to 99"), []) ∧
    (falsy e.id = false → VALID_UPDATE_OPERATION_TYPES.contains op = true →
      update e op none o =
        (.error (.valueError "recurrence_interval must be an int in the range from 1 to 99"), [])) := by
  have hv : validate e =
      .error (.valueError "recurrence_interval must be an int in the range from 1 to 99") := by
    unfold validate
    rw [hr, hed, hsd, hi]
    simp only [if_neg hds]
    rfl
  refine ⟨hv, ?_, ?_⟩
  · unfold create
    simp only [hv]
  · intro hid hop
    unfold update
    simp only [hid, Bool.false_eq_true, if_false, hop, if_true, hv]

theorem c7_witness :
    (validate evC7range =
      .error (.valueError "recurrence_interval must be an int in the range from 1 to 99") ∧
    create evC7range oracleEv =
      (.error (.valueError "recurrence_interval must be an int in the range from 1 to 99"), []) ∧
    (falsy evC7range.id = false →
      VALID_UPDATE_OPERATION_TYPES.contains "SendToNone" = true →
      update evC7range "SendToNone" none oracleEv =
        (.error (.valueError "recurrence_interval must be an int in the range from 1 to 99"), []))) :=
  c7_weekly_zero_interval_range_error evC7range 10 1 "SendToNone" oracleEv
    rfl rfl rfl rfl (by decide)
